import Mathlib

/-!
Shallow embedding of `src/index.js` of sabbir421/whatsapp-message-server.

The program keeps three module-level mutable variables (`client`,
`isClientInitializing`, `qrCodeContent`), a session initializer
(`initializeWhatsAppClient`), four backend event handlers registered on the
client (`qr`, `ready`, `auth_failure`, `disconnected`), a spreadsheet parser
(`parseExcelFile`) and two HTTP handlers (`POST /send-messages`,
`GET /link-device`).  Stateful code is embedded as explicit state passing on
`ServerState`; asynchronous effects (socket emits, client destruction and
handshake starts, message sends, delays) are recorded as traces of events.
Whether `await client.initialize()` / `await client.sendMessage(...)` throws
is supplied as an oracle parameter, since those promises are resolved by the
external `whatsapp-web.js` backend.
-/

/-- The `whatsapp-web.js` client object, abstracted to the one attribute the
server reads: `client.info`, which the backend populates once the session is
authenticated (the readiness check in `POST /send-messages` is
`client && client.info`). -/
structure WaClient where
  hasInfo : Bool
deriving DecidableEq, Repr

/-- The module-level mutable state of `src/index.js`: `client` (null or a
client object), `isClientInitializing`, and `qrCodeContent` (null or the
stored QR string). -/
structure ServerState where
  client : Option WaClient
  isClientInitializing : Bool
  qrCodeContent : Option String
deriving DecidableEq, Repr

/-- State at process start: `let client;` (undefined),
`let isClientInitializing = false;`, `let qrCodeContent = null;`. -/
def initialState : ServerState :=
  { client := none, isClientInitializing := false, qrCodeContent := none }

/-- Events emitted on the socket.io channel by `io.emit(...)`. -/
inductive Emitted where
  | qr (payload : String)
  | ready
  | authFailure (msg : String)
deriving DecidableEq, Repr

/-- Side effects of `initializeWhatsAppClient` on the client object:
`await client.destroy()`, `new Client(...)`, `await client.initialize()`. -/
inductive InitAction where
  | destroyOld
  | createNew
  | startHandshake
deriving DecidableEq, Repr

/-- Handler for the `qr` event (lines 46-50): store the QR string and
broadcast it. -/
def onQr (s : ServerState) (qr : String) : ServerState × List Emitted :=
  ({ s with qrCodeContent := some qr }, [Emitted.qr qr])

/-- Handler for the `ready` event (lines 52-56): reset the stored QR string
and broadcast `ready`. -/
def onReady (s : ServerState) : ServerState × List Emitted :=
  ({ s with qrCodeContent := none }, [Emitted.ready])

/-- Handler for the `auth_failure` event (lines 58-65): clear the stored QR
string and broadcast a fixed user-facing message; the backend's raw `msg` is
only logged to the console.  The `client` variable is not touched. -/
def onAuthFailure (s : ServerState) (_msg : String) : ServerState × List Emitted :=
  ({ s with qrCodeContent := none },
   [Emitted.authFailure "Authentication failed. Please re-scan the QR code."])

/-- Handler for the `disconnected` event (lines 67-71): clear the stored QR
string and drop the client object.  Nothing is emitted and
`isClientInitializing` is not touched. -/
def onDisconnected (s : ServerState) : ServerState × List Emitted :=
  ({ s with qrCodeContent := none, client := none }, [])

/-- Modelled from the spec: the backend (`whatsapp-web.js`, not in `src/`)
populates `client.info` when the handshake completes, then fires the `ready`
event ("On receiving a ready event: clear stored payload, transition to
`Ready`, emit `ready`"). -/
def backendReadyEvent (s : ServerState) : ServerState × List Emitted :=
  onReady { s with client := s.client.map (fun c => { c with hasInfo := true }) }

/-- Modelled from the spec: the spec's session-state enum
(`Absent → Initializing → AwaitingScan → Ready`, §4.1), derived from the
code's observable state: `Absent` when no client object exists, `Ready` when
`client.info` is populated (the readiness test of `POST /send-messages`),
`AwaitingScan` while a QR string is stored, `Initializing` otherwise. -/
inductive SessionState where
  | Absent
  | Initializing
  | AwaitingScan
  | Ready
deriving DecidableEq, Repr

/-- Derives the spec's session state from the server state (see
`SessionState`). -/
def sessionState (s : ServerState) : SessionState :=
  match s.client with
  | none => SessionState.Absent
  | some c =>
    if c.hasInfo then SessionState.Ready
    else if s.qrCodeContent.isSome then SessionState.AwaitingScan
    else SessionState.Initializing

/-- The synchronous head of `initializeWhatsAppClient` (lines 29-35): the
guard test `if (isClientInitializing) return;` followed, when the guard is
clear, by `isClientInitializing = true`.  Everything up to here runs before
the first `await` (the first asynchronous suspension point); the returned
flag says whether the call proceeds into the rest of the body. -/
def initGuardPhase (s : ServerState) : ServerState × Bool :=
  if s.isClientInitializing then (s, false)
  else ({ s with isClientInitializing := true }, true)

/-- The rest of the body of `initializeWhatsAppClient` (lines 37-78), run
after the guard has been set: destroy an existing client, construct a fresh
`Client` and start its handshake with `await client.initialize()`.
`initThrows` says whether that awaited promise rejects; the `catch` block
then clears the guard and the client. -/
def initRest (s : ServerState) (initThrows : Bool) : ServerState × List InitAction :=
  let destroyed : ServerState × List InitAction :=
    match s.client with
    | some _ => ({ s with client := none }, [InitAction.destroyOld])
    | none => (s, [])
  let s2 : ServerState := { destroyed.1 with client := some { hasInfo := false } }
  let acts : List InitAction :=
    destroyed.2 ++ [InitAction.createNew, InitAction.startHandshake]
  if initThrows then
    ({ s2 with isClientInitializing := false, client := none }, acts)
  else (s2, acts)

/-- `initializeWhatsAppClient` (lines 28-79), as a whole: the guard phase
followed, when the call proceeds, by the rest of the body. -/
def initializeWhatsAppClient (s : ServerState) (initThrows : Bool) :
    ServerState × List InitAction :=
  let g := initGuardPhase s
  if g.2 then initRest g.1 initThrows else (g.1, [])

/-- Number of `startHandshake` actions in a trace. -/
def countHandshakes (acts : List InitAction) : Nat :=
  acts.count InitAction.startHandshake

/-- A cell of the first worksheet as produced by
`xlsx.utils.sheet_to_json(sheet, { header: 1 })`: a string or a number.
Numeric cells that survive the filter are integral, so numbers are embedded
as `Int` (JavaScript prints integral numbers without a decimal point). -/
inductive Cell where
  | str (s : String)
  | num (n : Int)
deriving DecidableEq, Repr

/-- `typeof num === "number" ? num.toString() : num` (line 97). -/
def cellToString : Cell → String
  | Cell.num n => toString n
  | Cell.str s => s

/-- JavaScript `String.prototype.trim()` (line 98-99): strip whitespace from
both ends, embedded on the string's character list. -/
def jsTrim (s : String) : String :=
  String.mk
    (((s.data.dropWhile Char.isWhitespace).reverse.dropWhile Char.isWhitespace).reverse)

/-- The test `/^[0-9]+$/.test(·)` (line 98): one or more characters, all in
`[0-9]`. -/
def isNumericString (s : String) : Bool :=
  !s.data.isEmpty && s.data.all Char.isDigit

/-- `parseExcelFile` (lines 85-103) applied to the sheet's rows: skip the
header row, take the first column of each row, drop `undefined` values
(absent first cells), stringify numbers, keep values whose trimmed form is
numeric, and return the trimmed values. -/
def parseExcelFile (data : List (List Cell)) : List String :=
  (((((data.drop 1).map List.head?).filterMap id).map cellToString).filter
      (fun num => isNumericString (jsTrim num))).map (fun num => jsTrim num)

/-- Observable effects of the send loop of `POST /send-messages`:
`await client.sendMessage(addr, body)` and `await delay(ms)`. -/
inductive SendEvent where
  | send (addr : String) (body : String)
  | delayMs (ms : Nat)
deriving DecidableEq, Repr

/-- The `for (const [index, number] of mobileNumbers.entries())` loop
(lines 129-145): send to `` `${number}@c.us` ``; a rejected send throws out
of the loop (into the route's `catch`), recorded as `some index`; after a
successful send, delay 15000 ms unless `index < total - 1` fails.  `fails`
is the oracle saying which awaited sends reject; `total` is
`mobileNumbers.length`. -/
def sendLoop (fails : Nat → Bool) (total : Nat) (msg : String) :
    Nat → List String → List SendEvent × Option Nat
  | _, [] => ([], none)
  | idx, n :: rest =>
    if fails idx then ([SendEvent.send (n ++ "@c.us") msg], some idx)
    else
      let tail := sendLoop fails total msg (idx + 1) rest
      if idx < total - 1 then
        (SendEvent.send (n ++ "@c.us") msg :: SendEvent.delayMs 15000 :: tail.1, tail.2)
      else
        (SendEvent.send (n ++ "@c.us") msg :: tail.1, tail.2)

/-- One pipeline run over a recipient list: the send loop started at index 0
with `total = recipients.length`. -/
def runSendPipeline (fails : Nat → Bool) (msg : String) (recipients : List String) :
    List SendEvent × Option Nat :=
  sendLoop fails recipients.length msg 0 recipients

/-- Addresses of the send events of a trace, in order. -/
def sendsOf (evs : List SendEvent) : List String :=
  evs.filterMap (fun e =>
    match e with
    | SendEvent.send a _ => some a
    | SendEvent.delayMs _ => none)

/-- Durations of the delay events of a trace, in order. -/
def delaysOf (evs : List SendEvent) : List Nat :=
  evs.filterMap (fun e =>
    match e with
    | SendEvent.send _ _ => none
    | SendEvent.delayMs m => some m)

/-- Number of sends of a pipeline run that succeeded: every send in the
trace except the one that threw, if any. -/
def sentCount (r : List SendEvent × Option Nat) : Nat :=
  match r.2 with
  | none => (sendsOf r.1).length
  | some _ => (sendsOf r.1).length - 1

/-- HTTP responses produced by the two routes, with their payload string. -/
inductive HttpResponse where
  | badRequest (error : String)
  | serverError (error : String)
  | ok (message : String)
deriving DecidableEq, Repr

/-- The numeric status code of a response. -/
def HttpResponse.statusCode : HttpResponse → Nat
  | HttpResponse.badRequest _ => 400
  | HttpResponse.serverError _ => 500
  | HttpResponse.ok _ => 200

/-- The readiness test of `POST /send-messages` (line 120):
`!(!client || !client.info)`. -/
def clientIsReady : Option WaClient → Bool
  | some c => c.hasInfo
  | none => false

/-- The `POST /send-messages` handler (lines 106-152).  `file` is the parsed
rows of the uploaded spreadsheet (or `none` when no file was sent), `message`
the form field (`none` when absent; the empty string is falsy in
JavaScript).  Returns the response and the trace of send-loop events. -/
def sendMessagesHandler (file : Option (List (List Cell))) (message : Option String)
    (client : Option WaClient) (fails : Nat → Bool) : HttpResponse × List SendEvent :=
  match file, message with
  | none, _ => (HttpResponse.badRequest "File and message are required.", [])
  | some _, none => (HttpResponse.badRequest "File and message are required.", [])
  | some buf, some msg =>
    if msg = "" then (HttpResponse.badRequest "File and message are required.", [])
    else
      let mobileNumbers := parseExcelFile buf
      if mobileNumbers.length = 0 then
        (HttpResponse.badRequest "No valid mobile numbers found.", [])
      else if clientIsReady client = false then
        (HttpResponse.serverError "WhatsApp client is not initialized or ready.", [])
      else
        let r := runSendPipeline fails msg mobileNumbers
        match r.2 with
        | some _ => (HttpResponse.serverError "Failed to send messages.", r.1)
        | none => (HttpResponse.ok "Messages sent successfully!", r.1)

/-- The `GET /link-device` handler (lines 155-169).  When a QR string is
stored it is re-emitted and the handler responds 200 without touching the
client; otherwise `initializeWhatsAppClient` is invoked and the handler
responds 200.  Modelled from the spec for the backend part:
`client.initialize()` begins the handshake and resolves without waiting for
its completion, which instead arrives later through the `qr`/`ready` events —
so no lifecycle event is emitted by the time the response is sent.  Returns
the new state, the response, the emitted events and the init actions. -/
def linkDeviceHandler (s : ServerState) (initThrows : Bool) :
    ServerState × HttpResponse × List Emitted × List InitAction :=
  match s.qrCodeContent with
  | some qr =>
    (s, HttpResponse.ok "QR code already generated. Scan to link the device.",
     [Emitted.qr qr], [])
  | none =>
    let r := initializeWhatsAppClient s initThrows
    (r.1, HttpResponse.ok "Device linking initiated. QR code will be generated.",
     [], r.2)

/-- Spreadsheet of the C7 scenario: rows `["MobileNumber"]`,
`[919999999999]`, `["abc"]`, `[" 888 "]`. -/
def c7Sheet : List (List Cell) :=
  [[Cell.str "MobileNumber"], [Cell.num 919999999999], [Cell.str "abc"],
   [Cell.str " 888 "]]

/-- A reachable server state in the spec state `Ready` with the
initialization guard still set: process start, one successful
`initializeWhatsAppClient` run (which sets the guard and never clears it on
success), then the backend completing the handshake and firing `ready`. -/
def readyGuardedState : ServerState :=
  (backendReadyEvent (initializeWhatsAppClient initialState false).1).1

/-- A server state during linking: client object present (not yet
authenticated), guard set, QR string stored. -/
def awaitingScanState : ServerState :=
  { client := some { hasInfo := false }, isClientInitializing := true,
    qrCodeContent := some "QR-DATA" }

/-- C7: extraction of the spreadsheet with rows `["MobileNumber"]`,
`[919999999999]`, `["abc"]`, `[" 888 "]` returns exactly
`["919999999999", "888"]` — the header row and non-numeric cells are
dropped, numeric cells are stringified and whitespace is trimmed — and every
recipient returned by `parseExcelFile`, on any input, matches `^[0-9]+$`. -/
theorem parseExcelFile_c7_extraction :
    parseExcelFile c7Sheet = ["919999999999", "888"]
    ∧ ∀ (data : List (List Cell)) (r : String),
        r ∈ parseExcelFile data → isNumericString r = true := by
  constructor
  · decide
  · intro data r hr
    unfold parseExcelFile at hr
    rcases List.mem_map.mp hr with ⟨x, hx, hxr⟩
    have := (List.mem_filter.mp hx).2
    simpa [hxr] using this

/-- Witness for C7: `"888"` is produced by the extraction and is numeric. -/
theorem parseExcelFile_c7_extraction_witness :
    isNumericString "888" = true :=
  parseExcelFile_c7_extraction.2 c7Sheet "888"
    (by rw [parseExcelFile_c7_extraction.1]; simp)

/-- C1 (counterexample): in the reachable state `readyGuardedState` the
session is `Ready`, yet `initializeWhatsAppClient` is a no-op — it changes
no state and performs no teardown, construction or handshake — because the
guard flag survived the successful initialization; the claim says that in
every state other than `Initializing` (including `Ready`) the call tears
down the session and begins a new handshake. -/
theorem initializeWhatsAppClient_ready_noop_counterexample :
    sessionState readyGuardedState = SessionState.Ready
    ∧ initializeWhatsAppClient readyGuardedState false = (readyGuardedState, [])
    ∧ countHandshakes (initializeWhatsAppClient readyGuardedState false).2 = 0 := by
  decide

/-- C1 (amended): `initializeWhatsAppClient` is a no-op exactly when the
guard flag `isClientInitializing` is set — which, the guard being cleared
only on initialization failure, includes every state after a successful
initialization.  When the guard is clear the call destroys an existing
client, constructs a fresh one and begins a new handshake, and on a
successful start leaves the guard set and a fresh client stored. -/
theorem initializeWhatsAppClient_guard_semantics (s : ServerState) (b : Bool) :
    ((initializeWhatsAppClient s b).2 = [] ↔ s.isClientInitializing = true)
    ∧ (s.isClientInitializing = true → initializeWhatsAppClient s b = (s, []))
    ∧ (s.isClientInitializing = false →
        (initializeWhatsAppClient s b).2
          = (if s.client.isSome then [InitAction.destroyOld] else [])
            ++ [InitAction.createNew, InitAction.startHandshake]
        ∧ (initializeWhatsAppClient s false).1
            = { s with isClientInitializing := true,
                       client := some { hasInfo := false } }) := by
  cases hg : s.isClientInitializing <;>
    cases hc : s.client <;>
      simp [initializeWhatsAppClient, initGuardPhase, initRest, hg, hc] <;>
        cases b <;> simp

/-- Witness for C1 (amended): from the start state the call proceeds and its
trace is exactly client construction followed by a handshake start. -/
theorem initializeWhatsAppClient_guard_semantics_witness :
    initialState.isClientInitializing = false
    ∧ (initializeWhatsAppClient initialState false).2
        = [InitAction.createNew, InitAction.startHandshake] :=
  ⟨rfl, by
    have h :=
      ((initializeWhatsAppClient_guard_semantics initialState false).2.2 rfl).1
    simpa using h⟩

/-- C4: with the guard clear, the first call of `initializeWhatsAppClient`
sets the guard in its synchronous head, before reaching any asynchronous
suspension point; a second call arriving while the first is suspended finds
the guard set and performs no action at all, so across the interleaving
(first call's head, full second call, remainder of the first call) exactly
one handshake is started. -/
theorem initializeWhatsAppClient_single_handshake (s : ServerState) (b1 b2 : Bool)
    (h : s.isClientInitializing = false) :
    (initGuardPhase s).2 = true
    ∧ (initGuardPhase s).1.isClientInitializing = true
    ∧ (initializeWhatsAppClient (initGuardPhase s).1 b2).2 = []
    ∧ countHandshakes
        ((initializeWhatsAppClient (initGuardPhase s).1 b2).2
          ++ (initRest (initializeWhatsAppClient (initGuardPhase s).1 b2).1 b1).2)
        = 1 := by
  cases hc : s.client <;>
    cases b1 <;>
      simp [initializeWhatsAppClient, initGuardPhase, initRest, countHandshakes, h, hc]

/-- Witness for C4: the interleaving run from the start state performs one
handshake. -/
theorem initializeWhatsAppClient_single_handshake_witness :
    initialState.isClientInitializing = false
    ∧ countHandshakes
        ((initializeWhatsAppClient (initGuardPhase initialState).1 false).2
          ++ (initRest
                (initializeWhatsAppClient (initGuardPhase initialState).1 false).1
                false).2)
        = 1 :=
  ⟨rfl,
   (initializeWhatsAppClient_single_handshake initialState false false rfl).2.2.2⟩

/-- C9: when the awaited handshake rejects, `initializeWhatsAppClient`
returns normally (the embedding is a total function: the `catch` block
swallows the error), with the guard cleared, the client discarded and the
session state `Absent` — never stuck with the guard set after an
initialization error. -/
theorem initializeWhatsAppClient_error_recovery (s : ServerState)
    (h : s.isClientInitializing = false) :
    (initializeWhatsAppClient s true).1.isClientInitializing = false
    ∧ (initializeWhatsAppClient s true).1.client = none
    ∧ sessionState (initializeWhatsAppClient s true).1 = SessionState.Absent
    ∧ countHandshakes (initializeWhatsAppClient s true).2 = 1 := by
  cases hc : s.client <;>
    simp [initializeWhatsAppClient, initGuardPhase, initRest, sessionState,
      countHandshakes, h, hc]

/-- Witness for C9: a failing initialization from the start state leaves the
guard clear and no client. -/
theorem initializeWhatsAppClient_error_recovery_witness :
    initialState.isClientInitializing = false
    ∧ (initializeWhatsAppClient initialState true).1.isClientInitializing = false
    ∧ (initializeWhatsAppClient initialState true).1.client = none :=
  ⟨rfl, (initializeWhatsAppClient_error_recovery initialState rfl).1,
   (initializeWhatsAppClient_error_recovery initialState rfl).2.1⟩

/-- C6 (counterexample): receiving `auth_failure` in a linking state leaves
the session object in place — `client` is not set to null (only the
`disconnected` handler does that) — so the state is not `Absent`; the claim
says the session object is discarded and the state becomes `Absent`. -/
theorem onAuthFailure_keeps_client_counterexample :
    (onAuthFailure awaitingScanState "backend internal error").1.client
      = some { hasInfo := false }
    ∧ sessionState (onAuthFailure awaitingScanState "backend internal error").1
        ≠ SessionState.Absent := by
  decide

/-- C6 (amended): on an authentication-failure event the handler clears the
stored linking payload and emits `auth_failure` carrying a fixed user-safe
message — independent of the backend's raw error — while the session object
and the guard flag are left untouched (the session is not discarded). -/
theorem onAuthFailure_semantics (s : ServerState) (msg : String) :
    (onAuthFailure s msg).1.qrCodeContent = none
    ∧ (onAuthFailure s msg).1.client = s.client
    ∧ (onAuthFailure s msg).1.isClientInitializing = s.isClientInitializing
    ∧ (onAuthFailure s msg).2
        = [Emitted.authFailure "Authentication failed. Please re-scan the QR code."] :=
  ⟨rfl, rfl, rfl, rfl⟩

/-- C5: when a QR string is stored, `GET /link-device` re-emits exactly that
string, responds 200, performs no initialization action (no handshake
re-trigger) and leaves the state untouched; when none is stored, it responds
200 whatever the eventual outcome of the handshake (the response does not
wait on completion, and no lifecycle event has been emitted by response
time), with state and actions exactly those of `initializeWhatsAppClient`. -/
theorem linkDeviceHandler_behavior (s : ServerState) (b : Bool) (p : String) :
    (s.qrCodeContent = some p →
      linkDeviceHandler s b
        = (s, HttpResponse.ok "QR code already generated. Scan to link the device.",
           [Emitted.qr p], []))
    ∧ (s.qrCodeContent = none →
        (linkDeviceHandler s b).2.1.statusCode = 200
        ∧ (linkDeviceHandler s b).1 = (initializeWhatsAppClient s b).1
        ∧ (linkDeviceHandler s b).2.2.2 = (initializeWhatsAppClient s b).2
        ∧ (linkDeviceHandler s b).2.2.1 = []) := by
  constructor
  · intro hq
    simp [linkDeviceHandler, hq]
  · intro hq
    simp [linkDeviceHandler, hq, HttpResponse.statusCode]

/-- Witness for C5: with a stored QR string the handler re-emits it; from
the start state (no QR string) it responds 200 even when the handshake
subsequently fails. -/
theorem linkDeviceHandler_behavior_witness :
    linkDeviceHandler awaitingScanState false
      = (awaitingScanState,
         HttpResponse.ok "QR code already generated. Scan to link the device.",
         [Emitted.qr "QR-DATA"], [])
    ∧ (linkDeviceHandler initialState true).2.1.statusCode = 200 :=
  ⟨(linkDeviceHandler_behavior awaitingScanState false "QR-DATA").1 rfl,
   ((linkDeviceHandler_behavior initialState true "").2 rfl).1⟩

/-- Unfolding equation for one iteration of the send loop. -/
theorem sendLoop_cons (fails : Nat → Bool) (total : Nat) (msg : String)
    (idx : Nat) (n : String) (rest : List String) :
    sendLoop fails total msg idx (n :: rest)
      = if fails idx then ([SendEvent.send (n ++ "@c.us") msg], some idx)
        else if idx < total - 1 then
          (SendEvent.send (n ++ "@c.us") msg :: SendEvent.delayMs 15000 ::
             (sendLoop fails total msg (idx + 1) rest).1,
           (sendLoop fails total msg (idx + 1) rest).2)
        else
          (SendEvent.send (n ++ "@c.us") msg :: (sendLoop fails total msg (idx + 1) rest).1,
           (sendLoop fails total msg (idx + 1) rest).2) := by
  rw [sendLoop]

/-- Helper: a run of the send loop in which every send in range succeeds
produces the sends interleaved with 15000 ms delays (one delay between
consecutive sends) and no failure. -/
theorem sendLoop_ok (msg : String) (fails : Nat → Bool) (rs : List String) :
    ∀ (idx total : Nat), total = idx + rs.length →
      (∀ i, idx ≤ i → i < total → fails i = false) →
      sendLoop fails total msg idx rs
        = (List.intersperse (SendEvent.delayMs 15000)
             (rs.map fun r => SendEvent.send (r ++ "@c.us") msg), none) := by
  induction rs with
  | nil => intro idx total _ _; simp [sendLoop]
  | cons n rest ih =>
    intro idx total htot h
    simp only [List.length_cons, List.length_nil] at htot
    have hf : fails idx = false := h idx (Nat.le_refl idx) (by omega)
    cases rest with
    | nil =>
      simp only [List.length_nil] at htot
      have hnot : ¬ idx < total - 1 := by omega
      rw [sendLoop_cons, if_neg (by simp [hf]), if_neg hnot]
      simp [sendLoop, List.intersperse]
    | cons r2 rest' =>
      have hlt : idx < total - 1 := by
        simp only [List.length_cons] at htot; omega
      have htail := ih (idx + 1) total
        (by simp only [List.length_cons] at htot ⊢; omega)
        (fun i hi1 hi2 => h i (by omega) hi2)
      rw [sendLoop_cons, if_neg (by simp [hf]), if_pos hlt, htail]
      simp [List.intersperse]

/-- Helper: a run of the send loop whose relative position `j` holds the
first rejected send stops right after that send: the trace covers the first
`j + 1` recipients with a delay between consecutive sends (and none after
the failed send), and the failing index is reported. -/
theorem sendLoop_fail (msg : String) (fails : Nat → Bool) (rs : List String) :
    ∀ (idx total j : Nat), total = idx + rs.length → j < rs.length →
      (∀ i, i < j → fails (idx + i) = false) → fails (idx + j) = true →
      sendLoop fails total msg idx rs
        = (List.intersperse (SendEvent.delayMs 15000)
             ((rs.take (j + 1)).map fun r => SendEvent.send (r ++ "@c.us") msg),
           some (idx + j)) := by
  induction rs with
  | nil => intro idx total j _ hj _ _; simp at hj
  | cons n rest ih =>
    intro idx total j htot hj hbef hfail
    simp only [List.length_cons] at htot hj
    cases j with
    | zero =>
      have hf : fails idx = true := by simpa using hfail
      rw [sendLoop_cons, if_pos hf]
      simp [List.intersperse]
    | succ j' =>
      have hf : fails idx = false := by simpa using hbef 0 (Nat.succ_pos j')
      cases rest with
      | nil => simp only [List.length_nil] at hj; omega
      | cons r2 rest' =>
        have hidx : idx + (j' + 1) = idx + 1 + j' := by omega
        have htail := ih (idx + 1) total j'
          (by simp only [List.length_cons] at htot ⊢; omega)
          (by simp only [List.length_cons] at hj ⊢; omega)
          (fun i hi => by
            have hb := hbef (i + 1) (by omega)
            have heq : idx + (i + 1) = idx + 1 + i := by omega
            rwa [heq] at hb)
          (by rwa [hidx] at hfail)
        have hlt : idx < total - 1 := by
          simp only [List.length_cons] at htot; omega
        rw [hidx, sendLoop_cons, if_neg (by simp [hf]), if_pos hlt, htail]
        simp [List.intersperse]

/-- Helper: the sends of an interleaved trace, in input order. -/
theorem sendsOf_intersperse (msg : String) (d : Nat) (l : List String) :
    sendsOf (List.intersperse (SendEvent.delayMs d)
        (l.map fun r => SendEvent.send (r ++ "@c.us") msg))
      = l.map (fun r => r ++ "@c.us") := by
  induction l with
  | nil => simp [sendsOf]
  | cons x xs ih =>
    cases xs with
    | nil => simp [sendsOf, List.intersperse]
    | cons y ys =>
      simp only [List.map_cons, List.intersperse, sendsOf, List.filterMap_cons] at ih ⊢
      simpa using ih

/-- Helper: the delays of an interleaved trace: one per send except the
last. -/
theorem delaysOf_intersperse (msg : String) (d : Nat) (l : List String) :
    delaysOf (List.intersperse (SendEvent.delayMs d)
        (l.map fun r => SendEvent.send (r ++ "@c.us") msg))
      = List.replicate (l.length - 1) d := by
  induction l with
  | nil => simp [delaysOf]
  | cons x xs ih =>
    cases xs with
    | nil => simp [delaysOf, List.intersperse]
    | cons y ys =>
      simp only [List.map_cons, List.intersperse, delaysOf, List.filterMap_cons,
        List.length_cons] at ih ⊢
      simp [ih, List.replicate_succ]

/-- Helper: every send event of a send-loop trace carries the request's
message body and an address built from one of the recipients by appending
`"@c.us"`. -/
theorem sendLoop_send_mem (msg : String) (fails : Nat → Bool) (rs : List String) :
    ∀ (idx total : Nat) (a b : String),
      SendEvent.send a b ∈ (sendLoop fails total msg idx rs).1 →
      b = msg ∧ ∃ r ∈ rs, a = r ++ "@c.us" := by
  induction rs with
  | nil => intro idx total a b h; simp [sendLoop] at h
  | cons n rest ih =>
    intro idx total a b h
    rw [sendLoop_cons] at h
    by_cases hf : fails idx
    · rw [if_pos hf] at h
      simp only [List.mem_singleton, SendEvent.send.injEq] at h
      exact ⟨h.2, n, List.mem_cons_self n rest, h.1⟩
    · rw [if_neg hf] at h
      by_cases hlt : idx < total - 1
      · rw [if_pos hlt] at h
        simp only [List.mem_cons, SendEvent.send.injEq] at h
        rcases h with ⟨ha, hb⟩ | h | h
        · exact ⟨hb, n, List.mem_cons_self n rest, ha⟩
        · exact absurd h (by simp)
        · obtain ⟨hb, r, hr, ha⟩ := ih (idx + 1) total a b (by simpa using h)
          exact ⟨hb, r, List.mem_cons_of_mem n hr, ha⟩
      · rw [if_neg hlt] at h
        simp only [List.mem_cons, SendEvent.send.injEq] at h
        rcases h with ⟨ha, hb⟩ | h
        · exact ⟨hb, n, List.mem_cons_self n rest, ha⟩
        · obtain ⟨hb, r, hr, ha⟩ := ih (idx + 1) total a b (by simpa using h)
          exact ⟨hb, r, List.mem_cons_of_mem n hr, ha⟩

/-- Helper: appending the suffix `"@c.us"` always changes the string. -/
theorem append_cus_ne (r : String) : r ++ "@c.us" ≠ r := by
  intro h
  have hlen := congrArg String.length h
  rw [String.length_append] at hlen
  have h5 : ("@c.us" : String).length = 5 := rfl
  rw [h5] at hlen
  omega

/-- C2: when every send succeeds, a pipeline run over `N ≥ 1` recipients
produces exactly the `N` sends in input order interleaved with `N - 1`
delays of 15000 ms (one delay after every send except the last), reports no
failure, and its count of successful sends is `N`. -/
theorem sendPipeline_all_success (rs : List String) (msg : String)
    (fails : Nat → Bool) (_hn : 1 ≤ rs.length)
    (hok : ∀ i, i < rs.length → fails i = false) :
    (runSendPipeline fails msg rs).1
      = List.intersperse (SendEvent.delayMs 15000)
          (rs.map fun r => SendEvent.send (r ++ "@c.us") msg)
    ∧ sendsOf (runSendPipeline fails msg rs).1 = rs.map (fun r => r ++ "@c.us")
    ∧ delaysOf (runSendPipeline fails msg rs).1
        = List.replicate (rs.length - 1) 15000
    ∧ (runSendPipeline fails msg rs).2 = none
    ∧ sentCount (runSendPipeline fails msg rs) = rs.length := by
  have hrun : runSendPipeline fails msg rs
      = (List.intersperse (SendEvent.delayMs 15000)
           (rs.map fun r => SendEvent.send (r ++ "@c.us") msg), none) := by
    simp only [runSendPipeline]
    exact sendLoop_ok msg fails rs 0 rs.length (by omega)
      (fun i _ hi2 => hok i hi2)
  refine ⟨by rw [hrun], ?_, ?_, by rw [hrun], ?_⟩
  · rw [hrun]; exact sendsOf_intersperse msg 15000 rs
  · rw [hrun]; exact delaysOf_intersperse msg 15000 rs
  · simp [sentCount, hrun, sendsOf_intersperse, List.length_map]

/-- Witness for C2: a two-recipient run with no failures sends twice with
one 15000 ms delay and counts two successes. -/
theorem sendPipeline_all_success_witness :
    (1 : Nat) ≤ (["111", "222"] : List String).length
    ∧ sentCount (runSendPipeline (fun _ => false) "hi" ["111", "222"]) = 2
    ∧ delaysOf (runSendPipeline (fun _ => false) "hi" ["111", "222"]).1 = [15000]
    ∧ sendsOf (runSendPipeline (fun _ => false) "hi" ["111", "222"]).1
        = ["111@c.us", "222@c.us"] := by
  have h := sendPipeline_all_success ["111", "222"] "hi" (fun _ => false)
    (by decide) (fun i _ => rfl)
  refine ⟨by decide, ?_, ?_, ?_⟩
  · rw [h.2.2.2.2]; decide
  · rw [h.2.2.1]; decide
  · rw [h.2.1]; decide

/-- C3: if the `k`-th send (1-indexed, `1 ≤ k ≤ N`) is the first to be
rejected, the pipeline issues exactly `k` sends — the first `k` recipients
in input order, none after `k` — with exactly `k - 1` delays of 15000 ms
(none after the failed send), reports the failure at index `k - 1` (the
`k`-th recipient), and counts `k - 1` successful sends. -/
theorem sendPipeline_first_failure (rs : List String) (msg : String)
    (fails : Nat → Bool) (k : Nat) (hk1 : 1 ≤ k) (hkN : k ≤ rs.length)
    (hbefore : ∀ i, i < k - 1 → fails i = false) (hfail : fails (k - 1) = true) :
    sendsOf (runSendPipeline fails msg rs).1
      = (rs.take k).map (fun r => r ++ "@c.us")
    ∧ delaysOf (runSendPipeline fails msg rs).1 = List.replicate (k - 1) 15000
    ∧ (runSendPipeline fails msg rs).2 = some (k - 1)
    ∧ sentCount (runSendPipeline fails msg rs) = k - 1 := by
  have hrun : runSendPipeline fails msg rs
      = (List.intersperse (SendEvent.delayMs 15000)
           ((rs.take k).map fun r => SendEvent.send (r ++ "@c.us") msg),
         some (k - 1)) := by
    have h := sendLoop_fail msg fails rs 0 rs.length (k - 1) (by omega)
      (by omega)
      (fun i hi => by simpa using hbefore i hi)
      (by simpa using hfail)
    have hk : k - 1 + 1 = k := by omega
    rw [hk, Nat.zero_add] at h
    simpa [runSendPipeline] using h
  have hlen : (rs.take k).length = k := by
    rw [List.length_take]; omega
  refine ⟨?_, ?_, by rw [hrun], ?_⟩
  · rw [hrun]; exact sendsOf_intersperse msg 15000 (rs.take k)
  · rw [hrun]
    rw [delaysOf_intersperse msg 15000 (rs.take k), hlen]
  · rw [hrun]
    show (sendsOf (List.intersperse (SendEvent.delayMs 15000)
        ((rs.take k).map fun r => SendEvent.send (r ++ "@c.us") msg))).length - 1
      = k - 1
    rw [sendsOf_intersperse msg 15000 (rs.take k), List.length_map, hlen]

/-- Witness for C3: over three recipients with the second send rejected, the
run issues two sends, one delay, reports failure index 1 and one success. -/
theorem sendPipeline_first_failure_witness :
    (runSendPipeline (fun i => i == 1) "hi" ["111", "222", "333"]).2 = some 1
    ∧ sentCount (runSendPipeline (fun i => i == 1) "hi" ["111", "222", "333"]) = 1
    ∧ sendsOf (runSendPipeline (fun i => i == 1) "hi" ["111", "222", "333"]).1
        = ["111@c.us", "222@c.us"]
    ∧ delaysOf (runSendPipeline (fun i => i == 1) "hi" ["111", "222", "333"]).1
        = [15000] := by
  have h := sendPipeline_first_failure ["111", "222", "333"] "hi"
    (fun i => i == 1) 2 (by decide) (by decide)
    (fun i hi => by
      have : i = 0 := by omega
      rw [this]; rfl)
    rfl
  refine ⟨?_, ?_, ?_, ?_⟩
  · rw [h.2.2.1]
  · rw [h.2.2.2]
  · rw [h.1]; decide
  · rw [h.2.1]; decide

/-- C10: every destination address handed to the underlying send operation
during a pipeline run — whatever the failure pattern — is a recipient of
the run with the fixed suffix `"@c.us"` appended, and in particular is never
the bare recipient string; the body is always the request's message. -/
theorem sendPipeline_address_format (rs : List String) (msg : String)
    (fails : Nat → Bool) (a b : String)
    (h : SendEvent.send a b ∈ (runSendPipeline fails msg rs).1) :
    b = msg ∧ ∃ r ∈ rs, a = r ++ "@c.us" ∧ a ≠ r := by
  obtain ⟨hb, r, hr, ha⟩ :=
    sendLoop_send_mem msg fails rs 0 rs.length a b (by simpa [runSendPipeline] using h)
  refine ⟨hb, r, hr, ha, ?_⟩
  rw [ha]; exact append_cus_ne r

/-- Witness for C10: the one send of a single-recipient run addresses
`"777@c.us"`, which differs from the bare recipient `"777"`. -/
theorem sendPipeline_address_format_witness :
    "hi" = "hi"
    ∧ ∃ r ∈ (["777"] : List String), "777@c.us" = r ++ "@c.us" ∧ "777@c.us" ≠ r :=
  sendPipeline_address_format ["777"] "hi" (fun _ => false) "777@c.us" "hi"
    (by decide)

/-- C8: a `POST /send-messages` request with a file and a non-empty message
from which no valid recipient is extracted answers
`400 {error: "No valid mobile numbers found."}` with no send attempted,
whatever the session state — in particular the not-ready 500 is never
produced for an empty recipient list, the emptiness test coming first. -/
theorem sendMessagesHandler_empty_recipients (buf : List (List Cell))
    (msg : String) (client : Option WaClient) (fails : Nat → Bool)
    (hmsg : msg ≠ "") (hempty : parseExcelFile buf = []) :
    sendMessagesHandler (some buf) (some msg) client fails
      = (HttpResponse.badRequest "No valid mobile numbers found.", [])
    ∧ (sendMessagesHandler (some buf) (some msg) client fails).1.statusCode
        = 400 := by
  have h : sendMessagesHandler (some buf) (some msg) client fails
      = (HttpResponse.badRequest "No valid mobile numbers found.", []) := by
    simp [sendMessagesHandler, hmsg, hempty]
  exact ⟨h, by rw [h]; rfl⟩

/-- Witness for C8: a sheet whose only cell is non-numeric, with the client
absent (not ready), still answers the 400 empty-recipients error with no
sends. -/
theorem sendMessagesHandler_empty_recipients_witness :
    sendMessagesHandler (some [[Cell.str "abc"]]) (some "hello") none
        (fun _ => false)
      = (HttpResponse.badRequest "No valid mobile numbers found.", []) :=
  (sendMessagesHandler_empty_recipients [[Cell.str "abc"]] "hello" none
    (fun _ => false) (by decide) (by decide)).1
